import Mathlib

/-!
Verification of the AI-Persona RAG backend (Node/Express service).

The development shallowly embeds the retrieval-augmented-generation service
(backend/services/ragService.js, here part_003 of the sources) and the relevant
Express routes (backend/routes/rag.js, backend/routes/chat.js).  JavaScript
errors thrown by the service are plain Error objects carrying only a message
string; they are modelled as values of a one-field structure JsError, and a
function that can throw returns Except JsError.  The external collaborators
(OpenAI embeddings and completions, the Supabase vector store) are modelled as
explicit outcome parameters; the two components whose implementations live in
external libraries rather than in this repository (the text chunker and the
similarity search of the vector index) are modelled from the specification and
marked as such below.
-/

namespace AIPersona

/-- Free-form key-value metadata attached to documents and sessions. -/
abbrev Metadata := List (String × String)

/-- A stored document chunk as seen by the service: the langchain Document
with its pageContent text and metadata. -/
structure Doc where
  pageContent : String
  metadata : Metadata
deriving DecidableEq, Repr

/-- A source entry returned by chat and directQuery:
{ content: doc.pageContent, metadata: doc.metadata }. -/
structure Source where
  content : String
  metadata : Metadata
deriving DecidableEq, Repr

/-- A JavaScript Error value as thrown by the service: every throw site in
ragService.js uses new Error(message), so an error carries only its message
string and there is no further kind information. -/
structure JsError where
  message : String
deriving DecidableEq, Repr

/-- Char-list test: pat is a leading segment of the second list. -/
def startsWithChars : List Char → List Char → Bool
  | [], _ => true
  | _ :: _, [] => false
  | a :: as, b :: bs => a = b && startsWithChars as bs

/-- Char-list test: pat occurs contiguously somewhere in the list. -/
def hasSubChars (pat : List Char) : List Char → Bool
  | [] => pat.isEmpty
  | c :: cs => startsWithChars pat (c :: cs) || hasSubChars pat cs

/-- JavaScript String.prototype.includes, as used by the error classification
in searchDocuments and generatePersonaResponse. -/
def strContains (s pat : String) : Bool :=
  hasSubChars pat.data s.data

/-- The fixed user-facing quota message thrown by the service when an upstream
error message contains 429 or InsufficientQuotaError. -/
def quotaMessage : String :=
  "OpenAI API quota exceeded. Please check your billing or try again later."

/-- The catch block of RAGService.searchDocuments: classify the caught message
by substring and rethrow a plain Error. -/
def searchCatch (m : String) : JsError :=
  if strContains m "429" then { message := quotaMessage }
  else if strContains m "InsufficientQuotaError" then { message := quotaMessage }
  else { message := "Failed to search documents: " ++ m }

/-- Outcome of one call to the external OpenAI chat-completion endpoint, as a
function of the user prompt it is given. -/
inductive GenOutcome where
  | ok (text : String)
  | err (message : String)

/-- The persona configured in the RAGService constructor. -/
def personaName : String := "Mallikarjuna Iytha"

/-- Persona role field from the constructor. -/
def personaRole : String := "AI/ML Engineer and Technology Leader"

/-- Persona background field from the constructor. -/
def personaBackground : String :=
  "Experienced professional in artificial intelligence, machine learning, and technology leadership"

/-- Persona style field from the constructor. -/
def personaStyle : String :=
  "Professional, knowledgeable, and helpful with a focus on AI/ML and technology topics"

/-- The user prompt built by RAGService.generatePersonaResponse from the query
and the assembled context string. -/
def personaPrompt (query context : String) : String :=
  "You are " ++ personaName ++ ", " ++ personaRole ++
  ". You should respond as if you are this person, using your knowledge, experience, and personal style.\n\nYour background: " ++
  personaBackground ++ "\nYour communication style: " ++ personaStyle ++
  "\n\nUse the following context from your documents, interviews, articles, and videos to answer the user\x27s question. Respond as if you are speaking directly to them, drawing from your personal experience and knowledge:\n\nContext:\n" ++
  context ++ "\n\nQuestion: " ++ query ++
  "\n\nRemember: You ARE " ++ personaName ++
  ". Respond in first person, using phrases like \"I believe\", \"In my experience\", \"Based on my work\", etc. Be authentic to your persona while being helpful and informative."

/-- RAGService.searchDocuments.  storeReady models whether this.vectorStore is
non-null; sim models the external vectorStore.similaritySearch call, given the
query and the limit, returning either results or a raised error message.  Note
that the not-initialized throw happens inside the try block, so it is caught
and rewrapped by the same catch block as upstream failures. -/
def searchDocuments (storeReady : Bool)
    (sim : String → Nat → Except String (List Doc))
    (query : String) (limit : Nat) : Except JsError (List Doc) :=
  if storeReady then
    match sim query limit with
    | .ok rs => .ok rs
    | .error m => .error (searchCatch m)
  else
    .error (searchCatch "Vector store not initialized")

/-- RAGService.generatePersonaResponse: builds the persona prompt, calls the
completion endpoint (modelled by gen applied to the user prompt), and on
failure classifies the message exactly as searchDocuments does, but with the
generate-specific generic wrapper. -/
def generatePersonaResponse (gen : String → GenOutcome)
    (query context : String) : Except JsError String :=
  match gen (personaPrompt query context) with
  | .ok t => .ok t
  | .err m =>
    if strContains m "429" then .error { message := quotaMessage }
    else if strContains m "InsufficientQuotaError" then .error { message := quotaMessage }
    else .error { message := "Failed to generate response: " ++ m }

/-- JavaScript Array.prototype.join with a separator, as used for context
assembly: results.map(doc => doc.pageContent).join of a blank line. -/
def joinWith (sep : String) : List String → String
  | [] => ""
  | [a] => a
  | a :: b :: rest => a ++ sep ++ joinWith sep (b :: rest)

/-- Result shape of RAGService.chat. -/
structure ChatResult where
  response : String
  sources : List Source
  sessionId : Option String
deriving DecidableEq, Repr

/-- RAGService.chat: search with limit 5, join page contents with a blank
line, generate the persona response, return response, sources and the
sessionId argument.  Any error escaping the try block is rewrapped once as
Failed to generate response. -/
def chat (storeReady : Bool)
    (sim : String → Nat → Except String (List Doc))
    (gen : String → GenOutcome)
    (message : String) (sessionId : Option String) : Except JsError ChatResult :=
  match searchDocuments storeReady sim message 5 with
  | .error e => .error { message := "Failed to generate response: " ++ e.message }
  | .ok results =>
    match generatePersonaResponse gen message (joinWith "\n\n" (results.map Doc.pageContent)) with
    | .error e => .error { message := "Failed to generate response: " ++ e.message }
    | .ok response =>
      .ok { response := response
            sources := results.map (fun d => { content := d.pageContent, metadata := d.metadata })
            sessionId := sessionId }

/-- Result shape of RAGService.directQuery. -/
structure QueryResult where
  query : String
  response : String
  sources : List Source
deriving DecidableEq, Repr

/-- RAGService.directQuery: search with limit 3, same context assembly and
generation as chat, with its own generic catch wrapper. -/
def directQuery (storeReady : Bool)
    (sim : String → Nat → Except String (List Doc))
    (gen : String → GenOutcome)
    (query : String) : Except JsError QueryResult :=
  match searchDocuments storeReady sim query 3 with
  | .error e => .error { message := "Failed to process direct query: " ++ e.message }
  | .ok results =>
    match generatePersonaResponse gen query (joinWith "\n\n" (results.map Doc.pageContent)) with
    | .error e => .error { message := "Failed to process direct query: " ++ e.message }
    | .ok response =>
      .ok { query := query
            response := response
            sources := results.map (fun d => { content := d.pageContent, metadata := d.metadata }) }

/-- Error raised by the spec-modelled chunker. -/
inductive ChunkError where
  | emptyInput
deriving DecidableEq, Repr

/-- Message text carried by a chunker error when it is rethrown through a
JavaScript catch block. -/
def ChunkError.message : ChunkError → String
  | .emptyInput => "EmptyInputError: input text is empty or whitespace-only"

/-- Rank of a permissible cut directly before character index i: 3 for a
paragraph break (two newlines ending at i), 2 for a sentence break (a period
followed by a space ending at i), 1 for any whitespace at i - 1, 0 for a hard
character boundary. -/
def boundaryRank (cs : List Char) (i : Nat) : Nat :=
  if 2 ≤ i ∧ cs.get? (i - 2) = some '\n' ∧ cs.get? (i - 1) = some '\n' then 3
  else if 2 ≤ i ∧ cs.get? (i - 2) = some '.' ∧ cs.get? (i - 1) = some ' ' then 2
  else if 1 ≤ i ∧ (cs.get? (i - 1)).any Char.isWhitespace = true then 1
  else 0

/-- Cut position for an over-long text: among positions 1..targetSize prefer
the highest-ranked separator class and, within it, the largest position that
still keeps the chunk within targetSize; fall back to a hard cut at
targetSize. -/
def bestCut (cs : List Char) (targetSize : Nat) : Nat :=
  let idxs := ((List.range targetSize).map (· + 1)).filter (fun i => 0 < boundaryRank cs i)
  match idxs with
  | [] => targetSize
  | _ =>
    let maxRank := (idxs.map (boundaryRank cs)).foldl max 0
    (idxs.filter (fun i => boundaryRank cs i = maxRank)).foldl max 0

/-- Fuel-indexed chunk loop: a text no longer than targetSize is a single
chunk; otherwise cut at the best separator position and restart overlap
characters before the cut so that adjacent chunks share trailing context. -/
def splitGo (fuel : Nat) (cs : List Char) (targetSize overlap : Nat) : List String :=
  match fuel with
  | 0 => []
  | fuel + 1 =>
    if cs.length ≤ targetSize then [String.mk cs]
    else
      let cut := max (bestCut cs targetSize) 1
      let back := min overlap (cut - 1)
      String.mk (cs.take cut) :: splitGo fuel (cs.drop (cut - back)) targetSize overlap

/-- Modelled from the spec: the Chunker (spec section 4.1).  The repository
performs chunking through the external RecursiveCharacterTextSplitter library
with chunkSize 1000 and chunkOverlap 200; the implementation is not part of
the repository sources, so the contract is taken from the specification:
split on a hierarchy of separators (paragraph break, then sentence break, then
whitespace, then hard character boundary) with overlap characters of shared
context, a text no longer than targetSize being a single chunk, and empty or
whitespace-only input failing with EmptyInputError. -/
def split (text : String) (targetSize overlap : Nat) : Except ChunkError (List String) :=
  if text.data.all Char.isWhitespace then .error ChunkError.emptyInput
  else .ok (splitGo (text.data.length + 1) text.data targetSize overlap)

/-- Outcome of the external vectorStore.addDocuments call during upload. -/
inductive AddOutcome where
  | ok
  | err (message : String)

/-- Result shape of RAGService.uploadDocument. -/
structure UploadResult where
  success : Bool
  message : String
  chunks : Nat
  metadata : Metadata
deriving DecidableEq, Repr

/-- RAGService.uploadDocument: split the content with chunkSize 1000 and
chunkOverlap 200, attach the metadata to every chunk, and add the chunks to
the vector store only if this.vectorStore is non-null; then report success
with the chunk count.  The returned list is the vector-store contents after
the call; any raised error is rewrapped as Failed to upload document. -/
def uploadDocument (storeReady : Bool) (store : List Doc) (add : AddOutcome)
    (content : String) (metadata : Metadata) :
    Except JsError (UploadResult × List Doc) :=
  match split content 1000 200 with
  | .error e => .error { message := "Failed to upload document: " ++ e.message }
  | .ok chunks =>
    let docs := chunks.map (fun c => ({ pageContent := c, metadata := metadata } : Doc))
    if storeReady then
      match add with
      | .err m => .error { message := "Failed to upload document: " ++ m }
      | .ok =>
        .ok ({ success := true, message := "Document uploaded successfully"
               chunks := docs.length, metadata := metadata }, store ++ docs)
    else
      .ok ({ success := true, message := "Document uploaded successfully"
             chunks := docs.length, metadata := metadata }, store)

/-- JavaScript falsiness of the request-body content field as tested by the
upload route: true for a missing field and for the empty string, false for
every other string including whitespace-only ones. -/
def contentFalsy : Option String → Bool
  | none => true
  | some s => s = ""

/-- Observable part of an Express route response: HTTP status and, when the
body is a service result, its success field. -/
structure RouteResp where
  status : Nat
  success : Option Bool
deriving DecidableEq, Repr

/-- The POST /rag/upload route handler: 400 when content is missing or empty,
otherwise the service result with status 200, and 500 when the service
throws. -/
def uploadRoute (storeReady : Bool) (store : List Doc) (add : AddOutcome)
    (content : Option String) (metadata : Metadata) : RouteResp :=
  if contentFalsy content then { status := 400, success := none }
  else
    match uploadDocument storeReady store add (content.getD "") metadata with
    | .ok (r, _) => { status := 200, success := some r.success }
    | .error _ => { status := 500, success := none }

/-- Result shape of RAGService.getStats. -/
structure Stats where
  totalDocuments : Nat
  vectorStoreStatus : String
  errMsg : Option String
deriving DecidableEq, Repr

/-- The try block of RAGService.getStats: the Supabase count query either
yields a count (possibly null, defaulted to 0) or an error object which is
thrown. -/
def getStatsTry (storeReady : Bool) (countQuery : Except String (Option Nat)) :
    Except String Stats :=
  match countQuery with
  | .error m => .error m
  | .ok c =>
    .ok { totalDocuments := c.getD 0
          vectorStoreStatus := if storeReady then "active" else "inactive"
          errMsg := none }

/-- RAGService.getStats: the catch block converts any thrown error into a
returned record with zero documents, status error and the underlying message
attached, so getStats itself is a total function. -/
def getStats (storeReady : Bool) (countQuery : Except String (Option Nat)) : Stats :=
  match getStatsTry storeReady countQuery with
  | .ok s => s
  | .error m => { totalDocuments := 0, vectorStoreStatus := "error", errMsg := some m }

/-- Result shape of RAGService.healthCheck; the unhealthy branch carries only
an error message. -/
structure Health where
  status : String
  vectorStore : Option String
  documents : Option Nat
  errMsg : Option String
deriving DecidableEq, Repr

/-- The try block of RAGService.healthCheck: await getStats and return the
healthy record.  getStats is total, so the body always resolves. -/
def healthCheckTry (storeReady : Bool) (countQuery : Except String (Option Nat)) :
    Except String Health :=
  .ok { status := "healthy"
        vectorStore := some (getStats storeReady countQuery).vectorStoreStatus
        documents := some (getStats storeReady countQuery).totalDocuments
        errMsg := none }

/-- RAGService.healthCheck with its catch block. -/
def healthCheck (storeReady : Bool) (countQuery : Except String (Option Nat)) : Health :=
  match healthCheckTry storeReady countQuery with
  | .ok h => h
  | .error m => { status := "unhealthy", vectorStore := none, documents := none, errMsg := some m }

/-- Stable descending insertion by score: a new entry is placed before the
first existing entry of strictly smaller score, so entries of equal score keep
their insertion order. -/
def insertRanked (score : Doc → ℚ) (d : Doc) : List Doc → List Doc
  | [] => [d]
  | e :: es => if score d < score e then e :: insertRanked score d es else d :: e :: es

/-- Rank a whole index by descending score, stably. -/
def rankAll (score : Doc → ℚ) : List Doc → List Doc
  | [] => []
  | d :: ds => insertRanked score d (rankAll score ds)

/-- Modelled from the spec: the Vector Index search (spec section 4.3).  The
repository performs similarity search through the external
SupabaseVectorStore.similaritySearch call whose implementation is not part of
the repository sources; per the specification it returns the k entries of
highest similarity to the query, ranked descending with ties broken by
insertion order.  The similarity scoring of the entries against the query is
abstracted as a score function with rational values. -/
def indexSearch (entries : List Doc) (score : Doc → ℚ) (k : Nat) : List Doc :=
  (rankAll score entries).take k

/-- The similaritySearch callable backed by the spec-modelled index. -/
def simOf (entries : List Doc) (score : Doc → ℚ) :
    String → Nat → Except String (List Doc) :=
  fun _query limit => .ok (indexSearch entries score limit)

/-- One message stored inside a chat session (routes/chat.js). -/
structure SessionMsg where
  id : String
  content : String
  msgType : String
deriving DecidableEq, Repr

/-- A chat session stored in the in-memory map (routes/chat.js). -/
structure Session where
  id : String
  messages : List SessionMsg
  metadata : Metadata
deriving DecidableEq, Repr

/-- The in-memory chatSessions Map, as an insertion-ordered association
list. -/
abbrev SessionMap := List (String × Session)

/-- Map.get. -/
def mapGet (m : SessionMap) (k : String) : Option Session :=
  m.lookup k

/-- Map.set: update in place when the key exists, append otherwise, preserving
insertion order. -/
def mapSet (m : SessionMap) (k : String) (v : Session) : SessionMap :=
  if (m.lookup k).isSome then m.map (fun p => if p.1 = k then (k, v) else p)
  else m ++ [(k, v)]

/-- Map.delete. -/
def mapDelete (m : SessionMap) (k : String) : SessionMap :=
  m.filter (fun p => p.1 ≠ k)

/-- The per-request environment: vector-store readiness, the external search
and generation outcomes, and the uuid the server would mint next. -/
structure Env where
  storeReady : Bool
  sim : String → Nat → Except String (List Doc)
  gen : String → GenOutcome
  newId : String

/-- The HTTP requests relevant to the session map: the five /chat routes and
the RAG chat route. -/
inductive Request where
  | chatStart (metadata : Metadata)
  | chatMessage (sessionId : String) (message : String) (msgType : String)
  | chatGetSession (sessionId : String)
  | chatDeleteSession (sessionId : String)
  | chatSessionsList
  | ragChat (message : String) (sessionId : Option String)

/-- Observable part of a handled request: status plus the chat body when the
request was a RAG chat. -/
structure HandlerResult where
  status : Nat
  chatBody : Option ChatResult
deriving DecidableEq, Repr

/-- The route handlers of routes/chat.js and the POST /rag/chat handler of
routes/rag.js, as one step function over the session map.  A missing string
field of the request body is modelled as the empty string, which is exactly
what the JavaScript falsiness tests reject. -/
def handle (env : Env) (req : Request) (m : SessionMap) : HandlerResult × SessionMap :=
  match req with
  | .chatStart md =>
    ({ status := 200, chatBody := none },
     mapSet m env.newId { id := env.newId, messages := [], metadata := md })
  | .chatMessage sid msg ty =>
    if sid = "" ∨ msg = "" then ({ status := 400, chatBody := none }, m)
    else
      match mapGet m sid with
      | none => ({ status := 404, chatBody := none }, m)
      | some s =>
        ({ status := 200, chatBody := none },
         mapSet m sid { s with messages := s.messages ++ [{ id := env.newId, content := msg, msgType := ty }] })
  | .chatGetSession sid =>
    match mapGet m sid with
    | none => ({ status := 404, chatBody := none }, m)
    | some _ => ({ status := 200, chatBody := none }, m)
  | .chatDeleteSession sid =>
    match mapGet m sid with
    | none => ({ status := 404, chatBody := none }, m)
    | some _ => ({ status := 200, chatBody := none }, mapDelete m sid)
  | .chatSessionsList => ({ status := 200, chatBody := none }, m)
  | .ragChat msg sid =>
    if msg = "" then ({ status := 400, chatBody := none }, m)
    else
      match chat env.storeReady env.sim env.gen msg sid with
      | .ok r => ({ status := 200, chatBody := some r }, m)
      | .error _ => ({ status := 500, chatBody := none }, m)

/-- A simulated similarity-search failure whose message is a 429-equivalent
provider error, as in the axios failure text for an HTTP 429 reply. -/
def sim429 : String → Nat → Except String (List Doc) :=
  fun _ _ => .error "Request failed with status code 429"

/-- A long chunk text used to observe whether sources are truncated. -/
def longText : String :=
  "Mallikarjuna has led several applied machine learning initiatives across natural language processing, retrieval systems and production model deployment, spanning more than a decade of engineering and technology leadership experience."

/-- A stored document with the long chunk text and empty metadata. -/
def longDoc : Doc := { pageContent := longText, metadata := [] }

/-- A one-entry index used in witnesses. -/
def docA : Doc := { pageContent := "alpha", metadata := [] }

/-- A constant similarity score used in witnesses. -/
def scoreZ : Doc → ℚ := fun _ => 0

/-- A concrete request environment used in witnesses: ready store, empty
search results, a fixed generated reply. -/
def envC : Env :=
  { storeReady := true
    sim := fun _ _ => .ok []
    gen := fun _ => GenOutcome.ok "ok"
    newId := "id1" }

/-- A concrete stored session used in witnesses. -/
def sessA : Session := { id := "k", messages := [], metadata := [] }

/-! ## Helper lemmas -/

/-- Stable insertion grows the list by one. -/
theorem insertRanked_length (score : Doc → ℚ) (d : Doc) (l : List Doc) :
    (insertRanked score d l).length = l.length + 1 := by
  induction l with
  | nil => rfl
  | cons e es ih =>
    unfold insertRanked
    split
    · simp [ih]
    · simp

/-- Ranking is a permutation in size: it preserves the length. -/
theorem rankAll_length (score : Doc → ℚ) (l : List Doc) :
    (rankAll score l).length = l.length := by
  induction l with
  | nil => rfl
  | cons d ds ih => simp [rankAll, insertRanked_length, ih]

/-- The spec-modelled index search returns min k count entries. -/
theorem indexSearch_length (entries : List Doc) (score : Doc → ℚ) (k : Nat) :
    (indexSearch entries score k).length = min k entries.length := by
  simp [indexSearch, List.length_take, rankAll_length]

/-- When the similarity search succeeds with a given result list, a successful
chat reply carries exactly those results as sources, with the full page
content of each, and echoes the sessionId argument. -/
theorem chat_ok_sources (sim : String → Nat → Except String (List Doc))
    (gen : String → GenOutcome) (msg : String) (sid : Option String)
    (results : List Doc) (r : ChatResult)
    (hs : sim msg 5 = Except.ok results)
    (h : chat true sim gen msg sid = Except.ok r) :
    r.sources = results.map (fun d => { content := d.pageContent, metadata := d.metadata }) ∧
    r.sessionId = sid := by
  simp only [chat, searchDocuments, if_true, hs] at h
  cases hg : generatePersonaResponse gen msg (joinWith "\n\n" (results.map Doc.pageContent)) with
  | error e => rw [hg] at h; exact Except.noConfusion h
  | ok resp =>
    rw [hg] at h
    injection h with h
    subst h
    exact ⟨rfl, rfl⟩

/-- Analogue of chat_ok_sources for directQuery with its limit 3. -/
theorem directQuery_ok_sources (sim : String → Nat → Except String (List Doc))
    (gen : String → GenOutcome) (q : String)
    (results : List Doc) (qr : QueryResult)
    (hs : sim q 3 = Except.ok results)
    (h : directQuery true sim gen q = Except.ok qr) :
    qr.sources = results.map (fun d => { content := d.pageContent, metadata := d.metadata }) ∧
    qr.query = q := by
  simp only [directQuery, searchDocuments, if_true, hs] at h
  cases hg : generatePersonaResponse gen q (joinWith "\n\n" (results.map Doc.pageContent)) with
  | error e => rw [hg] at h; exact Except.noConfusion h
  | ok resp =>
    rw [hg] at h
    injection h with h
    subst h
    exact ⟨rfl, rfl⟩

/-! ## Claim theorems -/

/-- C1, counterexample: with a provider failure whose message contains 429,
searchDocuments throws the fixed quota message as a plain Error, and chat
rejects with that message rewrapped under the generic Failed to generate
response prefix — the quota error is not propagated unchanged, and the
rejection differs from the retrieval-layer error only in its message text. -/
theorem chat_quota_wrapped_cex :
    searchDocuments true sim429 "hello" 5 = Except.error { message := quotaMessage } ∧
    chat true sim429 (fun _ => GenOutcome.ok "") "hello" none =
      Except.error { message := "Failed to generate response: " ++ quotaMessage } ∧
    "Failed to generate response: " ++ quotaMessage ≠ quotaMessage := by
  refine ⟨rfl, rfl, ?_⟩
  decide

/-- C1, amended: quota classification happens inside searchDocuments by
substring-matching the provider message against 429 (and
InsufficientQuotaError) and produces a plain Error carrying a fixed quota
message text; chat rewraps that error once with the prefix Failed to generate
response, so callers can recognize a quota failure only by its message
text. -/
theorem chat_quota_classified_by_message (m msg : String) (gen : String → GenOutcome)
    (sid : Option String) (h : strContains m "429" = true) :
    searchDocuments true (fun _ _ => Except.error m) msg 5 =
      Except.error { message := quotaMessage } ∧
    chat true (fun _ _ => Except.error m) gen msg sid =
      Except.error { message := "Failed to generate response: " ++ quotaMessage } := by
  have hs : searchDocuments true (fun _ _ => Except.error m) msg 5 =
      Except.error (searchCatch m) := rfl
  have hc : searchCatch m = { message := quotaMessage } := by
    simp [searchCatch, h]
  refine ⟨hs.trans (by rw [hc]), ?_⟩
  simp only [chat, hs, hc]

/-- C1 witness: the amended theorem applied to the concrete axios message for
an HTTP 429 reply. -/
theorem chat_quota_classified_by_message_witness :
    searchDocuments true (fun _ _ => Except.error "Request failed with status code 429") "hi" 5 =
      Except.error { message := quotaMessage } ∧
    chat true (fun _ _ => Except.error "Request failed with status code 429")
        (fun _ => GenOutcome.ok "") "hi" none =
      Except.error { message := "Failed to generate response: " ++ quotaMessage } :=
  chat_quota_classified_by_message "Request failed with status code 429" "hi"
    (fun _ => GenOutcome.ok "") none (by decide)

/-- C2: with the vector store uninitialized (this.vectorStore null),
uploadDocument silently skips indexing and still returns success with the
chunk count: the store is unchanged yet the caller is told the document was
uploaded.  This contradicts the no-partial-success policy of the spec and the
success message of the code itself. -/
theorem uploadDocument_uninit_reports_success :
    uploadDocument false [] AddOutcome.ok "hello world" [] =
      Except.ok ({ success := true, message := "Document uploaded successfully",
                   chunks := 1, metadata := [] }, ([] : List Doc)) := rfl

/-- C3: getStats is a total function — the catch block turns a failing count
query into a returned record with zero documents, status error and the
underlying message attached, while the try block rethrows the query error and
a successful query reports active or inactive with no error attached. -/
theorem getStats_error_branch (b : Bool) (m : String) (c : Option Nat) :
    getStatsTry b (Except.error m) = Except.error m ∧
    getStats b (Except.error m) =
      { totalDocuments := 0, vectorStoreStatus := "error", errMsg := some m } ∧
    (getStats b (Except.ok c)).errMsg = none := by
  exact ⟨rfl, rfl, rfl⟩

/-- C4: the upload route replies 400 when content is missing or is the empty
string; the spec-modelled chunker fails with EmptyInputError on every
whitespace-only text; and for every whitespace-only content string the route
never reports success (it replies 400 for the empty string and 500 after the
service rethrows the chunker error otherwise). -/
theorem upload_empty_validation (b : Bool) (store : List Doc) (add : AddOutcome)
    (md : Metadata) (s : String) :
    (uploadRoute b store add none md).status = 400 ∧
    (uploadRoute b store add (some "") md).status = 400 ∧
    (s.data.all Char.isWhitespace = true →
      split s 1000 200 = Except.error ChunkError.emptyInput) ∧
    (s.data.all Char.isWhitespace = true →
      (uploadRoute b store add (some s) md).success ≠ some true) := by
  refine ⟨rfl, rfl, ?_, ?_⟩
  · intro h
    simp [split, h]
  · intro h
    by_cases hse : s = ""
    · subst hse
      simp [uploadRoute, contentFalsy]
    · simp [uploadRoute, contentFalsy, hse, uploadDocument, split, h]

/-- C4 witness: the validation theorem at the one-space content string. -/
theorem upload_empty_validation_witness :
    (uploadRoute true [] AddOutcome.ok none []).status = 400 ∧
    (uploadRoute true [] AddOutcome.ok (some "") []).status = 400 ∧
    split " " 1000 200 = Except.error ChunkError.emptyInput ∧
    (uploadRoute true [] AddOutcome.ok (some " ") []).success ≠ some true :=
  ⟨(upload_empty_validation true [] AddOutcome.ok [] " ").1,
   (upload_empty_validation true [] AddOutcome.ok [] " ").2.1,
   (upload_empty_validation true [] AddOutcome.ok [] " ").2.2.1 (by decide),
   (upload_empty_validation true [] AddOutcome.ok [] " ").2.2.2 (by decide)⟩

/-- C5, counterexample: a chat reply carries the source content verbatim —
for a concrete long chunk the returned source text is exactly the full page
content, not a strictly shorter truncated preview. -/
theorem chat_sources_full_cex :
    chat true (fun _ _ => Except.ok [longDoc]) (fun _ => GenOutcome.ok "reply") "q" none =
      Except.ok { response := "reply",
                  sources := [{ content := longText, metadata := [] }],
                  sessionId := none } ∧
    ¬ (({ content := longText, metadata := [] } : Source).content.length <
        longDoc.pageContent.length) := by
  refine ⟨rfl, ?_⟩
  simp [longDoc]

/-- C5, amended: chat and directQuery return their sources as the retrieval
results with the full chunk text (content equals pageContent, untruncated)
plus metadata. -/
theorem chat_sources_full_text (results : List Doc) (gen : String → GenOutcome)
    (msg q : String) (sid : Option String) (r : ChatResult) (qr : QueryResult) :
    (chat true (fun _ _ => Except.ok results) gen msg sid = Except.ok r →
      r.sources = results.map (fun d => { content := d.pageContent, metadata := d.metadata })) ∧
    (directQuery true (fun _ _ => Except.ok results) gen q = Except.ok qr →
      qr.sources = results.map (fun d => { content := d.pageContent, metadata := d.metadata })) := by
  constructor
  · intro h
    exact (chat_ok_sources _ gen msg sid results r rfl h).1
  · intro h
    exact (directQuery_ok_sources _ gen q results qr rfl h).1

/-- C5 witness: the amended theorem at the concrete long document. -/
theorem chat_sources_full_text_witness :
    ({ response := "reply", sources := [{ content := longText, metadata := [] }],
       sessionId := none } : ChatResult).sources =
      [longDoc].map (fun d => { content := d.pageContent, metadata := d.metadata }) ∧
    ({ query := "q", response := "reply",
       sources := [{ content := longText, metadata := [] }] } : QueryResult).sources =
      [longDoc].map (fun d => { content := d.pageContent, metadata := d.metadata }) :=
  ⟨(chat_sources_full_text [longDoc] (fun _ => GenOutcome.ok "reply") "q" "q" none
      { response := "reply", sources := [{ content := longText, metadata := [] }], sessionId := none }
      { query := "q", response := "reply", sources := [{ content := longText, metadata := [] }] }).1 rfl,
   (chat_sources_full_text [longDoc] (fun _ => GenOutcome.ok "reply") "q" "q" none
      { response := "reply", sources := [{ content := longText, metadata := [] }], sessionId := none }
      { query := "q", response := "reply", sources := [{ content := longText, metadata := [] }] }).2 rfl⟩

/-- C6: chat requests retrieval with limit 5 and directQuery with limit 3,
and against the spec-modelled index every successful reply carries at most
that many sources and never more than the index holds. -/
theorem retrieval_topk_bounds (entries : List Doc) (score : Doc → ℚ)
    (gen : String → GenOutcome) (msg q : String) (sid : Option String)
    (r : ChatResult) (qr : QueryResult) :
    (chat true (simOf entries score) gen msg sid = Except.ok r →
      r.sources.length ≤ 5 ∧ r.sources.length ≤ entries.length) ∧
    (directQuery true (simOf entries score) gen q = Except.ok qr →
      qr.sources.length ≤ 3 ∧ qr.sources.length ≤ entries.length) := by
  constructor
  · intro h
    have hsrc := (chat_ok_sources (simOf entries score) gen msg sid
      (indexSearch entries score 5) r rfl h).1
    rw [hsrc]
    simp only [List.length_map, indexSearch_length]
    omega
  · intro h
    have hsrc := (directQuery_ok_sources (simOf entries score) gen q
      (indexSearch entries score 3) qr rfl h).1
    rw [hsrc]
    simp only [List.length_map, indexSearch_length]
    omega

/-- C6 witness: the bounds at a one-entry index. -/
theorem retrieval_topk_bounds_witness :
    (({ response := "g", sources := [{ content := "alpha", metadata := [] }],
        sessionId := none } : ChatResult).sources.length ≤ 5 ∧
     ({ response := "g", sources := [{ content := "alpha", metadata := [] }],
        sessionId := none } : ChatResult).sources.length ≤ [docA].length) ∧
    (({ query := "m", response := "g",
        sources := [{ content := "alpha", metadata := [] }] } : QueryResult).sources.length ≤ 3 ∧
     ({ query := "m", response := "g",
        sources := [{ content := "alpha", metadata := [] }] } : QueryResult).sources.length ≤ [docA].length) :=
  ⟨(retrieval_topk_bounds [docA] scoreZ (fun _ => GenOutcome.ok "g") "m" "m" none
      { response := "g", sources := [{ content := "alpha", metadata := [] }], sessionId := none }
      { query := "m", response := "g", sources := [{ content := "alpha", metadata := [] }] }).1 rfl,
   (retrieval_topk_bounds [docA] scoreZ (fun _ => GenOutcome.ok "g") "m" "m" none
      { response := "g", sources := [{ content := "alpha", metadata := [] }], sessionId := none }
      { query := "m", response := "g", sources := [{ content := "alpha", metadata := [] }] }).2 rfl⟩

/-- C7: context assembly joins the retrieved chunk texts with a blank-line
separator in exactly the order the retrieval returned them: the prompt handed
to generation embeds that join, the join of a multi-element list starts with
the first chunk followed by the blank-line separator, and a single chunk is
passed through unchanged. -/
theorem chat_context_join_order (results : List Doc) (message : String)
    (sid : Option String) (d e : Doc) (es : List Doc) :
    chat true (fun _ _ => Except.ok results) (fun p => GenOutcome.ok p) message sid =
      Except.ok { response := personaPrompt message (joinWith "\n\n" (results.map Doc.pageContent)),
                  sources := results.map (fun x => { content := x.pageContent, metadata := x.metadata }),
                  sessionId := sid } ∧
    joinWith "\n\n" ((d :: e :: es).map Doc.pageContent) =
      d.pageContent ++ "\n\n" ++ joinWith "\n\n" ((e :: es).map Doc.pageContent) ∧
    joinWith "\n\n" ([d].map Doc.pageContent) = d.pageContent := by
  exact ⟨rfl, rfl, rfl⟩

/-- C8, counterexample: a ten-character whitespace-only document does not
yield one chunk — the chunker fails with EmptyInputError, as the spec itself
requires for whitespace-only input. -/
theorem split_whitespace_short_cex :
    split "          " 1000 200 = Except.error ChunkError.emptyInput ∧
    split "          " 1000 200 ≠ Except.ok ["          "] := by
  refine ⟨rfl, ?_⟩
  intro h
  exact Except.noConfusion (Eq.trans (Eq.symm (rfl : split "          " 1000 200 = Except.error ChunkError.emptyInput)) h)

/-- C8, amended: every text that is not whitespace-only and is shorter than
the target size of 1000 characters is returned by the chunker as exactly one
chunk covering the whole document. -/
theorem split_short_single_chunk (text : String)
    (h1 : text.data.all Char.isWhitespace = false)
    (h2 : text.data.length < 1000) :
    split text 1000 200 = Except.ok [text] := by
  simp only [split, h1, Bool.false_eq_true, if_false, splitGo]
  rw [if_pos (Nat.le_of_lt h2)]

/-- C8 witness: the amended theorem at a ten-character document. -/
theorem split_short_single_chunk_witness :
    split "some text!" 1000 200 = Except.ok ["some text!"] :=
  split_short_single_chunk "some text!" (by decide) (by decide)

/-- C9: healthCheck always reports healthy — getStats never throws, so the
unhealthy branch is unreachable, and a failing count query surfaces only as
vectorStore error with zero documents inside a healthy reply. -/
theorem healthCheck_always_healthy (b : Bool) (co : Except String (Option Nat))
    (m : String) :
    (healthCheck b co).status = "healthy" ∧
    healthCheck b (Except.error m) =
      { status := "healthy", vectorStore := some "error", documents := some 0,
        errMsg := none } := by
  exact ⟨rfl, rfl⟩

/-- C10: the RAG chat route leaves the session map unchanged and its reply is
independent of the map (chat neither creates, reads, nor modifies sessions);
the read-only session routes also leave the map unchanged, so only the start,
message and delete routes can mutate it; and a successful chat echoes the
sessionId argument unchanged, none standing for the omitted (null) case. -/
theorem chat_session_frame (env : Env) (m m' : SessionMap) (msg : String)
    (sid : Option String) :
    (handle env (Request.ragChat msg sid) m).2 = m ∧
    (handle env (Request.ragChat msg sid) m).1 = (handle env (Request.ragChat msg sid) m').1 ∧
    (∀ gsid, (handle env (Request.chatGetSession gsid) m).2 = m) ∧
    (handle env Request.chatSessionsList m).2 = m ∧
    (∀ r, chat env.storeReady env.sim env.gen msg sid = Except.ok r →
      r.sessionId = sid) := by
  refine ⟨?_, ?_, ?_, rfl, ?_⟩
  · simp only [handle]
    split
    · rfl
    · cases hc : chat env.storeReady env.sim env.gen msg sid <;> simp [hc]
  · simp only [handle]
    split
    · rfl
    · cases hc : chat env.storeReady env.sim env.gen msg sid <;> simp [hc]
  · intro gsid
    simp only [handle]
    cases hg : mapGet m gsid <;> simp [hg]
  · intro r h
    unfold chat at h
    cases hs : searchDocuments env.storeReady env.sim msg 5 with
    | error e => rw [hs] at h; exact Except.noConfusion h
    | ok results =>
      rw [hs] at h
      dsimp only at h
      cases hg : generatePersonaResponse env.gen msg (joinWith "\n\n" (results.map Doc.pageContent)) with
      | error e => rw [hg] at h; exact Except.noConfusion h
      | ok resp =>
        rw [hg] at h
        injection h with h
        subst h
        rfl

/-- C10 witness: the frame theorem at a concrete environment, a one-session
map and a concrete session id. -/
theorem chat_session_frame_witness :
    (handle envC (Request.ragChat "hi" (some "s1")) [("k", sessA)]).2 = [("k", sessA)] ∧
    ({ response := "ok", sources := [], sessionId := some "s1" } : ChatResult).sessionId =
      some "s1" :=
  ⟨(chat_session_frame envC [("k", sessA)] [] "hi" (some "s1")).1,
   (chat_session_frame envC [("k", sessA)] [] "hi" (some "s1")).2.2.2.2
     { response := "ok", sources := [], sessionId := some "s1" } rfl⟩

end AIPersona
